import Mathlib

/-
Verification of the task-manager data layer (src/models.py, src/validation_utils.py,
src/exceptions.py) against its natural-language specification.

Modelling conventions:
- Python `datetime` values are modelled as `Int` timestamps (seconds); comparison of
  datetimes is integer comparison.  `timedelta(days = d)` is `d * secondsPerDay`.
- Exceptions are modelled by the record `Exc` carrying the exception class name, the
  stable `error_code`, and the structured detail fields the claims talk about
  (`duplicate_ids`, `invalid_characters`, `current_status`, ...).  Fallible operations
  return `Except Exc _`.  Custom exceptions raised inside pydantic validators derive
  from `Exception` (not `ValueError`), so pydantic does not collect them: the first
  raise aborts construction, which matches the fail-fast `Except` semantics.
- Python `str` is Lean `String` (in this toolchain a structure holding a `List Char`,
  so string functions reduce in the kernel).  `str.strip()` is modelled by `pystrip`
  over the ASCII whitespace characters Python strips; `str.isalpha`/`isdigit`/`isalnum`
  are modelled on their ASCII range (`Char.isAlpha`, `Char.isDigit`, `Char.isAlphanum`),
  which coincides with Python on the ASCII inputs the claims are about.
- pydantic v1 `Field(min_length/max_length)` constraints run before custom field
  validators and raise pydantic `ValidationError`; these are modelled as `Exc` values
  with `excClass = "ValidationError"`.
-/

namespace TaskManager

/-- Exception model: class name plus `error_code` plus the structured `details`
entries that the specification's claims mention. -/
structure Exc where
  excClass : String := ""
  code : String := ""
  fieldName : String := ""
  taskId : String := ""
  currentStatus : String := ""
  attemptedStatus : String := ""
  duplicateIds : List Int := []
  invalidCharacters : List Char := []
deriving Repr, DecidableEq

/-- Characters removed by Python `str.strip()` (ASCII whitespace; Python also strips
some further Unicode spaces, which do not occur in any input considered here). -/
def isPySpace (c : Char) : Bool :=
  c = ' ' || c = '\t' || c = '\n' || c = '\r' || c = '\x0b' || c = '\x0c'

/-- Python `str.strip()`. -/
def pystrip (s : String) : String :=
  ⟨((s.toList.dropWhile isPySpace).reverse.dropWhile isPySpace).reverse⟩

/-- Number of seconds in a day; `timedelta(days = d)` is `d * secondsPerDay`. -/
def secondsPerDay : Int := 86400

inductive Priority where
  | low
  | medium
  | high
  | critical
deriving Repr, DecidableEq

inductive TaskStatus where
  | todo
  | in_progress
  | done
  | archived
deriving Repr, DecidableEq

/-- The string value of a `TaskStatus` member (the model class uses
`use_enum_values`, so statuses are compared through these strings). -/
def TaskStatus.value : TaskStatus → String
  | .todo => "todo"
  | .in_progress => "in_progress"
  | .done => "done"
  | .archived => "archived"

/-- Tag model (`models.py`): only its field data matters for the claims below. -/
structure Tag where
  name : String
  color : String
deriving Repr, DecidableEq

/-- Task model (`models.py` class `Task`), fields in source order. -/
structure Task where
  id : Option Int
  title : String
  description : Option String
  status : TaskStatus
  priority : Priority
  tags : List Tag
  due_date : Option Int
  created_at : Int
  completed_at : Option Int
deriving Repr, DecidableEq

/-- pydantic length constraints and the `title_must_not_be_empty` validator for
`Task.title` (`Field(min_length = 1, max_length = 200)`, then strip check). -/
def checkTitle (title : String) : Except Exc String :=
  if title.toList.length < 1 then
    .error { excClass := "ValidationError", code := "ANY_STR_MIN_LENGTH", fieldName := "title" }
  else if title.toList.length > 200 then
    .error { excClass := "ValidationError", code := "ANY_STR_MAX_LENGTH", fieldName := "title" }
  else if pystrip title = "" then
    .error { excClass := "FieldValidationException", code := "TASK_TITLE_EMPTY",
             fieldName := "title" }
  else .ok (pystrip title)

/-- pydantic length constraint for `Task.description` (`max_length = 2000`). -/
def checkDescription (d : Option String) : Except Exc (Option String) :=
  match d with
  | none => .ok none
  | some s =>
    if s.toList.length > 2000 then
      .error { excClass := "ValidationError", code := "ANY_STR_MAX_LENGTH",
               fieldName := "description" }
    else .ok (some s)

/-- The `due_date_must_be_future` validator (`models.py` lines 166-204).  It only
rejects a due date earlier than `one_year_ago = datetime(now.year - 1, now.month,
now.day, now.hour, now.minute, now.second)`; that calendar value is passed in here
as the timestamp `oneYearAgo`.  The validator never consults `created_at` (which,
being a later field, is not even available in `values` when it runs). -/
def due_date_must_be_future (v : Option Int) (oneYearAgo : Int) : Except Exc (Option Int) :=
  match v with
  | none => .ok none
  | some d =>
    if d < oneYearAgo then
      .error { excClass := "DateValidationException", code := "DUE_DATE_FAR_PAST",
               fieldName := "due_date" }
    else .ok (some d)

/-- The `set_completed_at_when_done` validator (`models.py` lines 206-230,
`always = True`): auto-set `completed_at` to now when status is DONE and it is
null, clear it whenever status is not DONE, otherwise keep the given value. -/
def set_completed_at_when_done (status : TaskStatus) (v : Option Int) (now : Int) :
    Option Int :=
  if status = .done ∧ v = none then some now
  else if status ≠ .done then none
  else v

/-- The `validate_task_consistency` root validator (`models.py` lines 232-251). -/
def validate_task_consistency (status : TaskStatus) (completed_at : Option Int) :
    Except Exc Unit :=
  if status = .archived ∧ completed_at = none then
    .error { excClass := "StateValidationException", code := "ARCHIVED_WITHOUT_COMPLETION",
             currentStatus := status.value }
  else .ok ()

/-- Construction of a `Task`: pydantic v1 validates fields in declaration order
(title, description, due_date, created_at default, completed_at), then runs the
root validator.  `now` is `datetime.utcnow()`; `oneYearAgo` is the calendar value
`datetime(now.year - 1, ...)` used by the due-date validator. -/
def Task.construct (now oneYearAgo : Int) (id : Option Int) (title : String)
    (description : Option String) (status : TaskStatus) (priority : Priority)
    (tags : List Tag) (due_date : Option Int) (created_at : Option Int)
    (completed_at : Option Int) : Except Exc Task :=
  match checkTitle title with
  | .error e => .error e
  | .ok t =>
    match checkDescription description with
    | .error e => .error e
    | .ok d =>
      match due_date_must_be_future due_date oneYearAgo with
      | .error e => .error e
      | .ok dd =>
        let ca := created_at.getD now
        let comp := set_completed_at_when_done status completed_at now
        match validate_task_consistency status comp with
        | .error e => .error e
        | .ok _ =>
          .ok { id := id, title := t, description := d, status := status,
                priority := priority, tags := tags, due_date := dd,
                created_at := ca, completed_at := comp }

/-- `Task.mark_complete` (`models.py` lines 253-308).  The status comparisons are
made through the enum string values as in the source; the success branch uses
pydantic `.copy(update = ...)`, which performs no re-validation, modelled as a
plain record update. -/
def Task.mark_complete (t : Task) (now : Int) : Except Exc Task :=
  if t.status.value = TaskStatus.done.value then
    .error { excClass := "InvalidStateTransitionException", code := "ALREADY_COMPLETED",
             currentStatus := t.status.value, attemptedStatus := TaskStatus.done.value }
  else if t.status.value = TaskStatus.archived.value then
    .error { excClass := "InvalidStateTransitionException", code := "ARCHIVED_TASK_COMPLETION",
             currentStatus := t.status.value, attemptedStatus := TaskStatus.done.value }
  else
    .ok { t with status := .done, completed_at := some now }

/-- TaskList model (`models.py` class `TaskList`). -/
structure TaskList where
  name : String
  tasks : List Task
  owner : String
  created_at : Int
deriving Repr, DecidableEq

/-- The comprehension `[task.id for task in v if task.id is not None]` used by the
duplicate-id checks: the non-null ids of the tasks, in list order. -/
def pyTaskIds (v : List Task) : List Int :=
  v.filterMap (fun t => t.id)

/-- The duplicate-collection loop of `validate_no_duplicate_task_ids`
(`models.py` lines 405-411): walk the ids keeping a `seen` set and a
`duplicates` set; an id is added to `duplicates` the first time it is met again
after having been seen.  Sets are modelled as duplicate-free lists, membership
guarding each insertion. -/
def dupScan : List Int → List Int → List Int → List Int
  | [], _, dups => dups
  | x :: xs, seen, dups =>
    dupScan xs (x :: seen) (if x ∈ seen ∧ x ∉ dups then dups ++ [x] else dups)

/-- The `validate_no_duplicate_task_ids` validator (`models.py` lines 395-437).
`len(task_ids) != len(set(task_ids))` is modelled through `List.dedup`, whose
length is the number of distinct ids. -/
def validate_no_duplicate_task_ids (v : List Task) : Except Exc (List Task) :=
  if v = [] then .ok v
  else
    let ids := pyTaskIds v
    if ids.length ≠ ids.dedup.length then
      .error { excClass := "DuplicateTaskException", code := "DUPLICATE_TASK_IDS_IN_LIST",
               taskId := toString (dupScan ids [] []), duplicateIds := dupScan ids [] [] }
    else .ok v

/-- pydantic length constraints and the `name_must_not_be_empty` validator for
`TaskList.name` (`Field(min_length = 1, max_length = 100)`, then strip check). -/
def checkListName (name : String) : Except Exc String :=
  if name.toList.length < 1 then
    .error { excClass := "ValidationError", code := "ANY_STR_MIN_LENGTH", fieldName := "name" }
  else if name.toList.length > 100 then
    .error { excClass := "ValidationError", code := "ANY_STR_MAX_LENGTH", fieldName := "name" }
  else if pystrip name = "" then
    .error { excClass := "FieldValidationException", code := "TASKLIST_NAME_EMPTY",
             fieldName := "name" }
  else .ok (pystrip name)

/-- Construction of a `TaskList`: pydantic validates `name` (constraints plus
validator) and then `tasks` (duplicate-id validator); `created_at` defaults to
now.  The `Task` elements have already been validated at their own
construction. -/
def TaskList.construct (now : Int) (name : String) (tasks : List Task) (owner : String)
    (created_at : Option Int) : Except Exc TaskList :=
  match checkListName name with
  | .error e => .error e
  | .ok n =>
    match validate_no_duplicate_task_ids tasks with
    | .error e => .error e
    | .ok ts =>
      .ok { name := n, tasks := ts, owner := owner, created_at := created_at.getD now }

/-- `TaskList.add_task` (`models.py` lines 439-481): when the new task carries a
non-null id it is checked against the non-null ids already in the list, then the
task is appended through `.copy(update = ...)` (no re-validation). -/
def TaskList.add_task (tl : TaskList) (task : Task) : Except Exc TaskList :=
  match task.id with
  | some tid =>
    if tid ∈ pyTaskIds tl.tasks then
      .error { excClass := "DuplicateTaskException", code := "DUPLICATE_TASK_IN_ADD",
               taskId := toString tid }
    else .ok { tl with tasks := tl.tasks ++ [task] }
  | none => .ok { tl with tasks := tl.tasks ++ [task] }

/-- The per-task loop body of `TaskList.get_overdue_tasks` (`models.py` lines
583-644): skip tasks without a due date, skip tasks whose status string equals
"done", append tasks whose due date is strictly before now. -/
def overdueLoop (now : Int) : List Task → List Task
  | [] => []
  | t :: ts =>
    match t.due_date with
    | none => overdueLoop now ts
    | some d =>
      if t.status.value = TaskStatus.done.value then overdueLoop now ts
      else if d < now then t :: overdueLoop now ts
      else overdueLoop now ts

/-- `TaskList.get_overdue_tasks`. -/
def TaskList.get_overdue_tasks (tl : TaskList) (now : Int) : List Task :=
  overdueLoop now tl.tasks

/-- The overdue condition as the specification words it: non-null
`due_date < now` and `status != DONE`. -/
def overdueSpec (now : Int) (t : Task) : Bool :=
  (match t.due_date with
   | some d => decide (d < now)
   | none => false) && !(t.status = TaskStatus.done)

/-- `validate_future_date` (`validation_utils.py` lines 93-165).  The
`INVALID_DATE_TYPE` branch guards against non-datetime arguments and cannot be
reached in this typed embedding; `now` is `datetime.now()` read once at entry. -/
def validate_future_date (value : Int) (now : Int) (allow_past_days : Int)
    (field_name : String) : Except Exc Int :=
  let earliest_allowed := now - allow_past_days * secondsPerDay
  if value < earliest_allowed then
    .error { excClass := "DateValidationException", code := "DATE_NOT_IN_FUTURE",
             fieldName := field_name }
  else
    let max_future := now + 365 * 100 * secondsPerDay
    if value > max_future then
      .error { excClass := "DateValidationException", code := "DATE_TOO_FAR_FUTURE",
               fieldName := field_name }
    else .ok value

/-- Character class `[a-zA-Z0-9_]` of the `User.validate_username_format`
pattern. -/
def pyUserUsernameAllowed (c : Char) : Bool :=
  c.isAlpha || c.isDigit || c = '_'

/-- Python `re.match(r"^[a-zA-Z0-9_]+$", v)`: the untranslated `$` matches at the
end of the string or just before one newline at the very end of the string, so
the pattern accepts the whole string being made of allowed characters, or all of
it but a single trailing newline. -/
def userUsernamePatternMatch (v : String) : Bool :=
  let l := v.toList
  (decide (l ≠ []) && l.all pyUserUsernameAllowed) ||
  (match l.getLast? with
   | some c =>
     decide (c = '\n') && decide (l.dropLast ≠ []) && l.dropLast.all pyUserUsernameAllowed
   | none => false)

/-- The `User.validate_username_format` field validator (`models.py` lines
668-715): empty check, then the `^[a-zA-Z0-9_]+$` pattern; on mismatch the
offending characters are collected and de-duplicated (`list(set(...))`,
modelled as `List.dedup`). -/
def userValidateUsername (v : String) : Except Exc String :=
  if v = "" ∨ pystrip v = "" then
    .error { excClass := "FieldValidationException", code := "USERNAME_EMPTY",
             fieldName := "username" }
  else if userUsernamePatternMatch v then .ok (pystrip v)
  else
    .error { excClass := "FieldValidationException", code := "USERNAME_INVALID_FORMAT",
             fieldName := "username",
             invalidCharacters := (v.toList.filter (fun c => !pyUserUsernameAllowed c)).dedup }

/-- Validation of the `User.username` field at construction: the pydantic
`Field(min_length = 3, max_length = 50)` constraints run first, then the custom
validator. -/
def usernameFieldValidate (v : String) : Except Exc String :=
  if v.toList.length < 3 then
    .error { excClass := "ValidationError", code := "ANY_STR_MIN_LENGTH",
             fieldName := "username" }
  else if v.toList.length > 50 then
    .error { excClass := "ValidationError", code := "ANY_STR_MAX_LENGTH",
             fieldName := "username" }
  else userValidateUsername v

/-- Character class `[a-zA-Z0-9_-]` of the standalone username validator. -/
def standaloneUsernameAllowed (c : Char) : Bool :=
  c.isAlpha || c.isDigit || c = '_' || c = '-'

/-- The check for consecutive special characters in the standalone validator:
`"__" in value or "--" in value or "_-" in value or "-_" in value`. -/
def hasConsecSpecial : List Char → Bool
  | a :: b :: rest =>
    ((a = '_' && b = '_') || (a = '-' && b = '-') ||
     (a = '_' && b = '-') || (a = '-' && b = '_')) || hasConsecSpecial (b :: rest)
  | _ => false

/-- Python `re.match(r"^[a-zA-Z]([a-zA-Z0-9_-]*[a-zA-Z0-9])?$", v)` on the
already-stripped value (stripping removed any trailing newline, so `$` is a
plain end anchor here): one letter alone, or a letter followed by allowed
characters ending in a letter or digit. -/
def standaloneUsernamePatternMatch : List Char → Bool
  | [] => false
  | [c] => c.isAlpha
  | c :: rest =>
    c.isAlpha && rest.dropLast.all standaloneUsernameAllowed &&
    (match rest.getLast? with
     | some z => z.isAlphanum
     | none => false)

/-- The standalone `validate_username_format` (`validation_utils.py` lines
298-443), branch for branch: empty, length bounds on the stripped value,
first-character letter check, last-character special check, consecutive-special
check, full pattern, and finally the split between `USERNAME_INVALID_CHARACTERS`
(some character outside `[a-zA-Z0-9_-]`, de-duplicated in the details) and
`USERNAME_INVALID_FORMAT`.  The `match` on `v.toList` is total; its `[]` branch
is unreachable because the stripped value was checked non-empty. -/
def validate_username_format (value : String) : Except Exc String :=
  if value = "" ∨ pystrip value = "" then
    .error { excClass := "FieldValidationException", code := "USERNAME_EMPTY",
             fieldName := "username" }
  else
    let v := pystrip value
    if v.toList.length < 3 then
      .error { excClass := "FieldValidationException", code := "USERNAME_TOO_SHORT",
               fieldName := "username" }
    else if v.toList.length > 30 then
      .error { excClass := "FieldValidationException", code := "USERNAME_TOO_LONG",
               fieldName := "username" }
    else
      match v.toList with
      | [] =>
        .error { excClass := "FieldValidationException", code := "USERNAME_EMPTY",
                 fieldName := "username" }
      | c0 :: rest =>
        if !c0.isAlpha then
          .error { excClass := "FieldValidationException", code := "USERNAME_INVALID_START",
                   fieldName := "username" }
        else if (match (c0 :: rest).getLast? with
                 | some z => z = '_' || z = '-'
                 | none => false) then
          .error { excClass := "FieldValidationException", code := "USERNAME_INVALID_END",
                   fieldName := "username" }
        else if hasConsecSpecial (c0 :: rest) then
          .error { excClass := "FieldValidationException",
                   code := "USERNAME_CONSECUTIVE_SPECIAL", fieldName := "username" }
        else if standaloneUsernamePatternMatch (c0 :: rest) then .ok v
        else
          let invalid := ((c0 :: rest).filter (fun c => !standaloneUsernameAllowed c)).dedup
          if invalid ≠ [] then
            .error { excClass := "FieldValidationException",
                     code := "USERNAME_INVALID_CHARACTERS", fieldName := "username",
                     invalidCharacters := invalid }
          else
            .error { excClass := "FieldValidationException",
                     code := "USERNAME_INVALID_FORMAT", fieldName := "username" }

/-- Modelled from the spec: the batch-validation scope of spec section 4.5.
`validation_context()` and `ValidationContext` are imported by
`src/validation_context_example.py` from `validation_utils`, but their
implementation is not present under `src/`; this model follows the
specification's words.  The context holds the ordered list of collected
errors. -/
structure ValidationContext where
  errors : List Exc
deriving Repr, DecidableEq

/-- Modelled from the spec: `validate(check)` invokes the check; on failure it
appends the raised error to the internal ordered list and returns false (here
`none`), on success it returns the produced value (`some`), leaving the list
untouched.  A check is modelled by its outcome, an `Except Exc` value. -/
def ValidationContext.validate {α : Type} (ctx : ValidationContext)
    (check : Except Exc α) : ValidationContext × Option α :=
  match check with
  | .ok a => (ctx, some a)
  | .error e => ({ errors := ctx.errors ++ [e] }, none)

/-- Modelled from the spec: running a sequence of checks in one scope.  Every
check is invoked (none is skipped because an earlier one failed) and its outcome
is recorded in order. -/
def runChecks {α : Type} : List (Except Exc α) → ValidationContext →
    ValidationContext × List (Option α)
  | [], ctx => (ctx, [])
  | c :: cs, ctx =>
    let step := ctx.validate c
    let rest := runChecks cs step.1
    (rest.1, step.2 :: rest.2)

/-- Modelled from the spec: `ValidationErrorCollection` wraps the collected
errors in discovery order. -/
structure ValidationErrorCollection where
  errors : List Exc
deriving Repr, DecidableEq

/-- Modelled from the spec: a whole `with validation_context()` scope over a
sequence of checks.  On normal exit, if the collected list is non-empty a
`ValidationErrorCollection` wrapping all of it is raised; if empty, exit is
silent and the recorded outcomes are returned. -/
def validation_scope {α : Type} (checks : List (Except Exc α)) :
    Except ValidationErrorCollection (List (Option α)) :=
  let run := runChecks checks { errors := [] }
  if run.1.errors = [] then .ok run.2 else .error { errors := run.1.errors }

/-- The error component of a check outcome, used to state which errors a batch
validation scope collects. -/
def errOf {α : Type} (c : Except Exc α) : Option Exc :=
  match c with
  | .ok _ => none
  | .error e => some e

/-- Decidable equality of operation outcomes, so that concrete runs of the model
can be settled by `decide`. -/
instance excResultDecEq {ε α : Type} [DecidableEq ε] [DecidableEq α] :
    DecidableEq (Except ε α) := fun x y =>
  match x, y with
  | .ok a, .ok b =>
    if h : a = b then isTrue (by rw [h]) else isFalse (fun c => h (Except.ok.inj c))
  | .error a, .error b =>
    if h : a = b then isTrue (by rw [h]) else isFalse (fun c => h (Except.error.inj c))
  | .ok _, .error _ => isFalse (fun c => Except.noConfusion c)
  | .error _, .ok _ => isFalse (fun c => Except.noConfusion c)

/-- An overdue TODO task (due 5, before now = 10) for the overdue-filter scenario. -/
def pastTodoTask : Task :=
  { id := some 1, title := "t1", description := none, status := .todo, priority := .medium,
    tags := [], due_date := some 5, created_at := 0, completed_at := none }

/-- An overdue IN_PROGRESS task for the overdue-filter scenario. -/
def pastInProgressTask : Task :=
  { id := some 2, title := "t2", description := none, status := .in_progress,
    priority := .medium, tags := [], due_date := some 5, created_at := 0,
    completed_at := none }

/-- A DONE task with a past due date for the overdue-filter scenario. -/
def pastDoneTask : Task :=
  { id := some 3, title := "t3", description := none, status := .done, priority := .medium,
    tags := [], due_date := some 5, created_at := 0, completed_at := some 6 }

/-- An ARCHIVED task with a past due date for the overdue-filter scenario. -/
def pastArchivedTask : Task :=
  { id := some 4, title := "t4", description := none, status := .archived,
    priority := .medium, tags := [], due_date := some 5, created_at := 0,
    completed_at := some 6 }

/-- A TODO task with a future due date (20, after now = 10) for the scenario. -/
def futureTodoTask : Task :=
  { id := some 5, title := "t5", description := none, status := .todo, priority := .medium,
    tags := [], due_date := some 20, created_at := 0, completed_at := none }

/-- A TODO task without a due date for the scenario. -/
def noDueTodoTask : Task :=
  { id := some 6, title := "t6", description := none, status := .todo, priority := .medium,
    tags := [], due_date := none, created_at := 0, completed_at := none }

/-- A task carrying a given non-null id, for the duplicate-id scenario. -/
def idTask (i : Int) : Task :=
  { id := some i, title := "t", description := none, status := .todo, priority := .medium,
    tags := [], due_date := none, created_at := 0, completed_at := none }

theorem status_value_done_iff (s : TaskStatus) :
    s.value = TaskStatus.done.value ↔ s = .done := by
  cases s <;> simp [TaskStatus.value]

theorem status_value_archived_iff (s : TaskStatus) :
    s.value = TaskStatus.archived.value ↔ s = .archived := by
  cases s <;> simp [TaskStatus.value]

theorem overdueLoop_eq_filter (now : Int) (ts : List Task) :
    overdueLoop now ts = ts.filter (overdueSpec now) := by
  induction ts with
  | nil => rfl
  | cons t ts ih =>
    unfold overdueLoop
    cases hd : t.due_date with
    | none => simp [List.filter_cons, overdueSpec, hd, ih]
    | some d =>
      by_cases hs : t.status = TaskStatus.done
      · simp [List.filter_cons, overdueSpec, hd, hs, status_value_done_iff, ih,
              TaskStatus.value]
      · have hv : ¬ t.status.value = TaskStatus.done.value := by
          simpa [status_value_done_iff] using hs
        by_cases hlt : d < now
        · simp [List.filter_cons, overdueSpec, hd, hs, hv, hlt, ih]
        · simp [List.filter_cons, overdueSpec, hd, hs, hv, hlt, ih]

/-- Claim C1 (code_bug evidence): the code has no due_date/created_at ordering
check.  The task below has `due_date = 913600`, one day before
`created_at = 1000000`, with the current time also `1000000` (so the due date is
well within one year of now); construction succeeds, while the claim, and the
repository's own test `test_due_date_before_created_at_fails`, require it to
fail with a date-range error. -/
theorem C1_due_date_before_created_at_accepted :
    Task.construct 1000000 0 none "Test Task" none .todo .medium []
        (some 913600) (some 1000000) none =
      .ok { id := none, title := "Test Task", description := none, status := .todo,
            priority := .medium, tags := [], due_date := some 913600,
            created_at := 1000000, completed_at := none } ∧
    (913600 : Int) < 1000000 := by
  constructor
  · decide
  · decide

/-- Claim C3: `mark_complete` on a DONE task always fails with an
`InvalidStateTransitionException` of code `ALREADY_COMPLETED`, and on an
ARCHIVED task (its `completed_at` set) with code `ARCHIVED_TASK_COMPLETION`;
both outcomes are errors, so no new Task is produced. -/
theorem C3_mark_complete_rejects_done_and_archived (t : Task) (now : Int) :
    (t.status = .done →
      t.mark_complete now =
        .error { excClass := "InvalidStateTransitionException", code := "ALREADY_COMPLETED",
                 currentStatus := "done", attemptedStatus := "done" }) ∧
    (t.status = .archived → t.completed_at ≠ none →
      t.mark_complete now =
        .error { excClass := "InvalidStateTransitionException",
                 code := "ARCHIVED_TASK_COMPLETION", currentStatus := "archived",
                 attemptedStatus := "done" }) := by
  constructor
  · intro h
    simp [Task.mark_complete, h, TaskStatus.value]
  · intro h _
    simp [Task.mark_complete, h, TaskStatus.value]

theorem C3_witness :
    Task.mark_complete
        { id := some 1, title := "t", description := none, status := .done,
          priority := .medium, tags := [], due_date := none, created_at := 0,
          completed_at := some 5 } 7 =
      .error { excClass := "InvalidStateTransitionException", code := "ALREADY_COMPLETED",
               currentStatus := "done", attemptedStatus := "done" } ∧
    Task.mark_complete
        { id := some 2, title := "t", description := none, status := .archived,
          priority := .medium, tags := [], due_date := none, created_at := 0,
          completed_at := some 5 } 7 =
      .error { excClass := "InvalidStateTransitionException",
               code := "ARCHIVED_TASK_COMPLETION", currentStatus := "archived",
               attemptedStatus := "done" } :=
  ⟨(C3_mark_complete_rejects_done_and_archived _ 7).1 rfl,
   (C3_mark_complete_rejects_done_and_archived _ 7).2 rfl (by decide)⟩

/-- Claim C4: `mark_complete` on a TODO or IN_PROGRESS task succeeds and returns
a new Task with status DONE and `completed_at = now`, all other fields equal to
the original's; the original is a value that the operation does not mutate. -/
theorem C4_mark_complete_success_frame (t : Task) (now : Int)
    (h : t.status = .todo ∨ t.status = .in_progress) :
    t.mark_complete now = .ok { t with status := .done, completed_at := some now } ∧
    (∀ t2 : Task, t.mark_complete now = .ok t2 →
      t2.status = .done ∧ t2.completed_at = some now ∧ t2.id = t.id ∧
      t2.title = t.title ∧ t2.description = t.description ∧ t2.priority = t.priority ∧
      t2.tags = t.tags ∧ t2.due_date = t.due_date ∧ t2.created_at = t.created_at) := by
  have hmk : t.mark_complete now = .ok { t with status := .done, completed_at := some now } := by
    rcases h with h | h <;> simp [Task.mark_complete, h, TaskStatus.value]
  refine ⟨hmk, ?_⟩
  intro t2 h2
  rw [hmk] at h2
  cases h2
  simp

theorem C4_witness :
    Task.mark_complete pastTodoTask 11 =
      .ok { pastTodoTask with status := .done, completed_at := some 11 } ∧
    Task.mark_complete pastInProgressTask 11 =
      .ok { pastInProgressTask with status := .done, completed_at := some 11 } :=
  ⟨(C4_mark_complete_success_frame pastTodoTask 11 (Or.inl rfl)).1,
   (C4_mark_complete_success_frame pastInProgressTask 11 (Or.inr rfl)).1⟩

/-- Claim C5: `get_overdue_tasks` returns exactly the tasks with a non-null
`due_date` strictly before now and status not DONE, in list order (it equals a
filter of the task list); on the six-task scenario it returns exactly the
overdue TODO, IN_PROGRESS and ARCHIVED tasks, excluding the DONE, future-dated
and no-due-date ones. -/
theorem C5_get_overdue_tasks_filter (tl : TaskList) (now : Int) :
    tl.get_overdue_tasks now = tl.tasks.filter (overdueSpec now) ∧
    (∀ t : Task, t ∈ tl.get_overdue_tasks now ↔
      t ∈ tl.tasks ∧ (∃ d, t.due_date = some d ∧ d < now) ∧ t.status ≠ .done) ∧
    TaskList.get_overdue_tasks
        { name := "l", owner := "o", created_at := 0,
          tasks := [pastTodoTask, pastInProgressTask, pastDoneTask, pastArchivedTask,
                    futureTodoTask, noDueTodoTask] } 10 =
      [pastTodoTask, pastInProgressTask, pastArchivedTask] := by
  refine ⟨overdueLoop_eq_filter now tl.tasks, ?_, by decide⟩
  intro t
  rw [TaskList.get_overdue_tasks, overdueLoop_eq_filter, List.mem_filter]
  constructor
  · rintro ⟨hmem, hp⟩
    rw [overdueSpec] at hp
    cases hd : t.due_date with
    | none =>
      rw [hd] at hp
      simp at hp
    | some d =>
      rw [hd] at hp
      simp only [Bool.and_eq_true, decide_eq_true_eq, Bool.not_eq_true',
                 decide_eq_false_iff_not] at hp
      exact ⟨hmem, ⟨d, rfl, hp.1⟩, hp.2⟩
  · rintro ⟨hmem, ⟨d, hd, hlt⟩, hs⟩
    refine ⟨hmem, ?_⟩
    rw [overdueSpec, hd]
    simp [hlt, hs]

/-- Claim C7, counterexample: the claim says `validate_future_date` never fails
for any instant strictly greater than now, but an instant more than 100 years
(36500 days) ahead fails with `DATE_TOO_FAR_FUTURE`. -/
theorem C7_far_future_counterexample :
    (0 : Int) < 36501 * secondsPerDay ∧
    validate_future_date (36501 * secondsPerDay) 0 0 "date" =
      .error { excClass := "DateValidationException", code := "DATE_TOO_FAR_FUTURE",
               fieldName := "date" } := by
  constructor
  · decide
  · decide

/-- Claim C7, amended: for `allow_past_days = p >= 0`, `validate_future_date`
never fails for an instant strictly greater than now and at most 100 years
(365 * 100 days) after now; it always fails with `DATE_NOT_IN_FUTURE` for an
instant strictly less than `now - p` days; `value = now` passes (the comparison
is strict), and on success the value is returned unchanged. -/
theorem C7_validate_future_date_amended (value now p : Int) (fn : String) (hp : 0 ≤ p) :
    (now < value → value ≤ now + 365 * 100 * secondsPerDay →
      validate_future_date value now p fn = .ok value) ∧
    (value < now - p * secondsPerDay →
      validate_future_date value now p fn =
        .error { excClass := "DateValidationException", code := "DATE_NOT_IN_FUTURE",
                 fieldName := fn }) ∧
    validate_future_date now now p fn = .ok now ∧
    (∀ w : Int, validate_future_date value now p fn = .ok w → w = value) := by
  have hps : 0 ≤ p * 86400 := mul_nonneg hp (by norm_num)
  refine ⟨?_, ?_, ?_, ?_⟩
  · intro hgt hle
    have hle2 : value ≤ now + 365 * 100 * 86400 := by simpa [secondsPerDay] using hle
    simp only [validate_future_date, secondsPerDay]
    rw [if_neg (by omega), if_neg (by omega)]
  · intro hlt
    have hlt2 : value < now - p * 86400 := by simpa [secondsPerDay] using hlt
    simp only [validate_future_date, secondsPerDay]
    rw [if_pos hlt2]
  · simp only [validate_future_date, secondsPerDay]
    rw [if_neg (by omega), if_neg (by omega)]
  · intro w hw
    simp only [validate_future_date, secondsPerDay] at hw
    by_cases h1 : value < now - p * 86400
    · rw [if_pos h1] at hw
      cases hw
    · rw [if_neg h1] at hw
      by_cases h2 : value > now + 365 * 100 * 86400
      · rw [if_pos h2] at hw
        cases hw
      · rw [if_neg h2] at hw
        exact (Except.ok.inj hw).symm

theorem C7_witness :
    validate_future_date 5 3 0 "due_date" = .ok 5 ∧
    validate_future_date (-100) 0 0 "due_date" =
      .error { excClass := "DateValidationException", code := "DATE_NOT_IN_FUTURE",
               fieldName := "due_date" } ∧
    validate_future_date 42 42 7 "due_date" = .ok 42 :=
  ⟨(C7_validate_future_date_amended 5 3 0 "due_date" (by norm_num)).1 (by norm_num)
     (by norm_num [secondsPerDay]),
   (C7_validate_future_date_amended (-100) 0 0 "due_date" (by norm_num)).2.1
     (by norm_num [secondsPerDay]),
   (C7_validate_future_date_amended 42 42 7 "due_date" (by norm_num)).2.2.1⟩

/-- Claim C9: Task construction accepts any non-null due date that is at least
the one-year-ago bound, independently of `created_at` (in particular a due date
earlier than `created_at` is accepted), and rejects a due date below that bound
with a `DateValidationException` of code `DUE_DATE_FAR_PAST`. -/
theorem C9_due_date_independent_of_created_at (now oneYearAgo d createdIn : Int)
    (title : String) (h1 : 1 ≤ title.toList.length) (h2 : title.toList.length ≤ 200)
    (h3 : pystrip title ≠ "") :
    (oneYearAgo ≤ d →
      Task.construct now oneYearAgo none title none .todo .medium [] (some d)
          (some createdIn) none =
        .ok { id := none, title := pystrip title, description := none, status := .todo,
              priority := .medium, tags := [], due_date := some d,
              created_at := createdIn, completed_at := none }) ∧
    (d < oneYearAgo →
      Task.construct now oneYearAgo none title none .todo .medium [] (some d)
          (some createdIn) none =
        .error { excClass := "DateValidationException", code := "DUE_DATE_FAR_PAST",
                 fieldName := "due_date" }) := by
  have ht : checkTitle title = .ok (pystrip title) := by
    unfold checkTitle
    rw [if_neg (by omega), if_neg (by omega), if_neg h3]
  constructor
  · intro hle
    have hdue : due_date_must_be_future (some d) oneYearAgo = .ok (some d) := by
      simp only [due_date_must_be_future]
      rw [if_neg (not_lt.mpr hle)]
    simp [Task.construct, ht, hdue, checkDescription, set_completed_at_when_done,
          validate_task_consistency]
  · intro hlt
    have hdue : due_date_must_be_future (some d) oneYearAgo =
        .error { excClass := "DateValidationException", code := "DUE_DATE_FAR_PAST",
                 fieldName := "due_date" } := by
      simp only [due_date_must_be_future]
      rw [if_pos hlt]
    simp [Task.construct, ht, hdue, checkDescription]

theorem C9_witness :
    Task.construct 1000 0 none "Test" none .todo .medium [] (some 10) (some 500) none =
      .ok { id := none, title := "Test", description := none, status := .todo,
            priority := .medium, tags := [], due_date := some 10, created_at := 500,
            completed_at := none } ∧
    (10 : Int) < 500 ∧
    Task.construct 1000 0 none "Test" none .todo .medium [] (some (-5)) (some 500) none =
      .error { excClass := "DateValidationException", code := "DUE_DATE_FAR_PAST",
               fieldName := "due_date" } :=
  ⟨(C9_due_date_independent_of_created_at 1000 0 10 500 "Test" (by decide) (by decide)
      (by decide)).1 (by norm_num),
   by norm_num,
   (C9_due_date_independent_of_created_at 1000 0 (-5) 500 "Test" (by decide) (by decide)
      (by decide)).2 (by norm_num)⟩

theorem runChecks_errors {α : Type} (cs : List (Except Exc α)) (ctx : ValidationContext) :
    (runChecks cs ctx).1.errors = ctx.errors ++ cs.filterMap errOf := by
  induction cs generalizing ctx with
  | nil => simp [runChecks]
  | cons c cs ih =>
    cases c with
    | ok a =>
      simp [runChecks, ValidationContext.validate, ih, errOf, List.filterMap_cons]
    | error e =>
      simp [runChecks, ValidationContext.validate, ih, errOf, List.filterMap_cons]

theorem runChecks_length {α : Type} (cs : List (Except Exc α)) (ctx : ValidationContext) :
    (runChecks cs ctx).2.length = cs.length := by
  induction cs generalizing ctx with
  | nil => simp [runChecks]
  | cons c cs ih =>
    cases c with
    | ok a => simp [runChecks, ValidationContext.validate, ih]
    | error e => simp [runChecks, ValidationContext.validate, ih]

/-- Claim C2 (the `ValidationContext` implementation is absent from src/, so this
settles the claim against the model built from the specification's words):
`validate(check)` returns the produced value on success and, on failure, appends
the raised error to the internal ordered list and reports failure; a scope over
a list of checks invokes every check (the outcome list has one entry per check,
none skipped), collects exactly the raised errors in discovery order, raises a
`ValidationErrorCollection` wrapping all of them on normal exit when any were
collected, exits silently otherwise, and on the four-check scenario where checks
1, 2 and 4 fail and check 3 succeeds the raised collection holds exactly those
three errors in invocation order. -/
theorem C2_validation_context_collects_all {α : Type} (ctx : ValidationContext)
    (e e1 e2 e4 : Exc) (a v : α) (checks : List (Except Exc α)) :
    ctx.validate (Except.ok a) = (ctx, some a) ∧
    ctx.validate (Except.error e : Except Exc α) =
      ({ errors := ctx.errors ++ [e] }, (none : Option α)) ∧
    (runChecks checks { errors := [] }).2.length = checks.length ∧
    (runChecks checks { errors := [] }).1.errors = checks.filterMap errOf ∧
    (checks.filterMap errOf ≠ [] →
      validation_scope checks = .error { errors := checks.filterMap errOf }) ∧
    (checks.filterMap errOf = [] →
      validation_scope checks = .ok (runChecks checks { errors := [] }).2) ∧
    (validation_scope [Except.error e1, Except.error e2, Except.ok v, Except.error e4] =
       .error { errors := [e1, e2, e4] } ∧
     ([e1, e2, e4] : List Exc).length = 3) := by
  have herr : (runChecks checks ({ errors := [] } : ValidationContext)).1.errors =
      checks.filterMap errOf := by
    simpa using runChecks_errors checks { errors := [] }
  refine ⟨rfl, rfl, runChecks_length checks _, herr, ?_, ?_, ?_, rfl⟩
  · intro hne
    unfold validation_scope
    rw [if_neg (by rw [herr]; exact hne), herr]
  · intro heq
    unfold validation_scope
    rw [if_pos (by rw [herr]; exact heq)]
  · show validation_scope _ = _
    simp [validation_scope, runChecks, ValidationContext.validate]

theorem C2_witness :
    validation_scope [Except.error { code := "E1" }, Except.error { code := "E2" },
        Except.ok (3 : Nat), Except.error { code := "E4" }] =
      .error { errors := [{ code := "E1" }, { code := "E2" }, { code := "E4" }] } ∧
    validation_scope [Except.ok (1 : Nat), Except.ok 2] = .ok [some 1, some 2] ∧
    ValidationContext.validate { errors := [] } (Except.error ({ code := "E1" } : Exc)) =
      ({ errors := [{ code := "E1" }] }, (none : Option Nat)) := by
  refine ⟨(C2_validation_context_collects_all { errors := [] } { code := "E1" }
      { code := "E1" } { code := "E2" } { code := "E4" } 3 3 []).2.2.2.2.2.2.1, ?_, ?_⟩
  · exact (C2_validation_context_collects_all { errors := [] } { code := "E1" }
      { code := "E1" } { code := "E2" } { code := "E4" } 1 1
      [Except.ok 1, Except.ok 2]).2.2.2.2.2.1 (by decide)
  · simpa using (C2_validation_context_collects_all ({ errors := [] } : ValidationContext)
      ({ code := "E1" } : Exc) { code := "E1" } { code := "E2" } { code := "E4" }
      (0 : Nat) 0 []).2.1

theorem mem_dupScan (x : Int) : ∀ (xs seen dups : List Int),
    x ∈ dupScan xs seen dups ↔
      x ∈ dups ∨ (x ∈ xs ∧ (x ∈ seen ∨ 2 ≤ xs.count x)) := by
  intro xs
  induction xs with
  | nil =>
    intro seen dups
    simp [dupScan]
  | cons y ys ih =>
    intro seen dups
    rw [dupScan, ih]
    by_cases hxy : x = y
    · subst hxy
      by_cases hseen : x ∈ seen <;> by_cases hdups : x ∈ dups <;>
        simp [hseen, hdups, List.count_cons]
    · by_cases hcond : y ∈ seen ∧ y ∉ dups <;>
        simp [hcond, List.mem_append, hxy, List.count_cons]

theorem length_eq_length_dedup_iff (l : List Int) :
    l.length = l.dedup.length ↔ l.Nodup := by
  constructor
  · intro h
    have hsub : l.dedup.Sublist l := List.dedup_sublist l
    have hd : l.dedup = l := hsub.eq_of_length h.symm
    rw [← hd]
    exact List.nodup_dedup l
  · intro h
    rw [List.Nodup.dedup h]

/-- Claim C6: no observable TaskList holds two tasks with the same non-null id.
Construction succeeds exactly when the non-null ids are duplicate-free, and on
failure raises `DUPLICATE_TASK_IDS_IN_LIST` whose `duplicate_ids` detail holds
exactly the ids occurring at least twice (for ids 1,1,2,2,3 exactly 1 and 2);
`add_task` of a task whose non-null id is already present fails with
`DUPLICATE_TASK_IN_ADD` naming that id (the original list, a value, is not
mutated), otherwise appends; tasks with a null id are ignored by both checks,
so they never count as duplicates; and a successful `add_task` preserves the
duplicate-free invariant. -/
theorem C6_no_duplicate_task_ids (now : Int) (name owner : String) (cAt : Option Int)
    (tasks : List Task) (tl : TaskList) (task : Task) (tid : Int)
    (hn1 : 1 ≤ name.toList.length) (hn2 : name.toList.length ≤ 100)
    (hn3 : pystrip name ≠ "") :
    ((pyTaskIds tasks).Nodup →
      TaskList.construct now name tasks owner cAt =
        .ok { name := pystrip name, tasks := tasks, owner := owner,
              created_at := cAt.getD now }) ∧
    (¬ (pyTaskIds tasks).Nodup →
      ∃ e : Exc, TaskList.construct now name tasks owner cAt = .error e ∧
        e.excClass = "DuplicateTaskException" ∧ e.code = "DUPLICATE_TASK_IDS_IN_LIST" ∧
        (∀ i : Int, i ∈ e.duplicateIds ↔ 2 ≤ (pyTaskIds tasks).count i)) ∧
    (task.id = some tid → tid ∈ pyTaskIds tl.tasks →
      tl.add_task task =
        .error { excClass := "DuplicateTaskException", code := "DUPLICATE_TASK_IN_ADD",
                 taskId := toString tid }) ∧
    (task.id = some tid → tid ∉ pyTaskIds tl.tasks →
      tl.add_task task = .ok { tl with tasks := tl.tasks ++ [task] }) ∧
    (task.id = none → tl.add_task task = .ok { tl with tasks := tl.tasks ++ [task] }) ∧
    ((pyTaskIds tl.tasks).Nodup → ∀ tl2 : TaskList, tl.add_task task = .ok tl2 →
      (pyTaskIds tl2.tasks).Nodup) ∧
    (∃ e : Exc,
      TaskList.construct 0 "list" [idTask 1, idTask 1, idTask 2, idTask 2, idTask 3]
          "o" none = .error e ∧
      e.code = "DUPLICATE_TASK_IDS_IN_LIST" ∧ e.duplicateIds = [1, 2]) := by
  have hname : checkListName name = .ok (pystrip name) := by
    unfold checkListName
    rw [if_neg (by omega), if_neg (by omega), if_neg hn3]
  refine ⟨?_, ?_, ?_, ?_, ?_, ?_, ?_⟩
  · intro hnd
    have hval : validate_no_duplicate_task_ids tasks = .ok tasks := by
      unfold validate_no_duplicate_task_ids
      by_cases hne : tasks = []
      · rw [if_pos hne]
      · rw [if_neg hne,
            if_neg (by
              simp only [ne_eq, Decidable.not_not]
              exact (length_eq_length_dedup_iff (pyTaskIds tasks)).mpr hnd)]
    simp [TaskList.construct, hname, hval]
  · intro hnd
    have hne : tasks ≠ [] := by
      intro h
      subst h
      exact hnd (by simp [pyTaskIds])
    have hval : validate_no_duplicate_task_ids tasks =
        .error { excClass := "DuplicateTaskException", code := "DUPLICATE_TASK_IDS_IN_LIST",
                 taskId := toString (dupScan (pyTaskIds tasks) [] []),
                 duplicateIds := dupScan (pyTaskIds tasks) [] [] } := by
      unfold validate_no_duplicate_task_ids
      rw [if_neg hne,
          if_pos (by
            intro h
            exact hnd ((length_eq_length_dedup_iff (pyTaskIds tasks)).mp h))]
    refine ⟨{ excClass := "DuplicateTaskException", code := "DUPLICATE_TASK_IDS_IN_LIST",
              taskId := toString (dupScan (pyTaskIds tasks) [] []),
              duplicateIds := dupScan (pyTaskIds tasks) [] [] },
            by simp [TaskList.construct, hname, hval], rfl, rfl, ?_⟩
    intro i
    rw [mem_dupScan]
    simp only [List.not_mem_nil, false_or]
    constructor
    · rintro ⟨-, h⟩
      exact h
    · intro h
      exact ⟨List.count_pos_iff.mp (by omega), h⟩
  · intro hid hmem
    simp only [TaskList.add_task, hid]
    rw [if_pos hmem]
  · intro hid hmem
    simp only [TaskList.add_task, hid]
    rw [if_neg hmem]
  · intro hid
    simp only [TaskList.add_task, hid]
  · intro hnd tl2 h2
    cases hid : task.id with
    | none =>
      simp only [TaskList.add_task, hid] at h2
      cases h2
      simpa [pyTaskIds, List.filterMap_append, hid] using hnd
    | some tid2 =>
      simp only [TaskList.add_task, hid] at h2
      by_cases hmem : tid2 ∈ pyTaskIds tl.tasks
      · rw [if_pos hmem] at h2
        cases h2
      · rw [if_neg hmem] at h2
        cases h2
        simp only [pyTaskIds, List.filterMap_append, List.nodup_append]
        refine ⟨by simpa [pyTaskIds] using hnd, by simp [hid], ?_⟩
        intro a ha hb
        simp [hid] at hb
        subst hb
        exact hmem (by simpa [pyTaskIds] using ha)
  · exact ⟨{ excClass := "DuplicateTaskException", code := "DUPLICATE_TASK_IDS_IN_LIST",
             taskId := toString (([1, 2] : List Int)), duplicateIds := [1, 2] },
           by decide, rfl, rfl⟩

theorem C6_witness :
    TaskList.construct 0 "list" [idTask 1, idTask 2] "o" none =
      .ok { name := "list", tasks := [idTask 1, idTask 2], owner := "o", created_at := 0 } ∧
    TaskList.add_task
        { name := "list", tasks := [idTask 1, idTask 2], owner := "o", created_at := 0 }
        (idTask 1) =
      .error { excClass := "DuplicateTaskException", code := "DUPLICATE_TASK_IN_ADD",
               taskId := "1" } ∧
    TaskList.add_task
        { name := "list", tasks := [idTask 1, idTask 2], owner := "o", created_at := 0 }
        (idTask 3) =
      .ok { name := "list", tasks := [idTask 1, idTask 2, idTask 3], owner := "o",
            created_at := 0 } := by
  refine ⟨?_, ?_, ?_⟩
  · have h := (C6_no_duplicate_task_ids 0 "list" "o" none [idTask 1, idTask 2]
      { name := "list", tasks := [], owner := "o", created_at := 0 } (idTask 1) 1
      (by decide) (by decide) (by decide)).1 (by decide)
    simpa using h
  · have h := (C6_no_duplicate_task_ids 0 "list" "o" none []
      { name := "list", tasks := [idTask 1, idTask 2], owner := "o", created_at := 0 }
      (idTask 1) 1 (by decide) (by decide) (by decide)).2.2.1 rfl (by decide)
    simpa using h
  · have h := (C6_no_duplicate_task_ids 0 "list" "o" none []
      { name := "list", tasks := [idTask 1, idTask 2], owner := "o", created_at := 0 }
      (idTask 3) 3 (by decide) (by decide) (by decide)).2.2.2.1 rfl (by decide)
    simpa using h

theorem set_completed_ne_none_iff (status : TaskStatus) (v : Option Int) (now : Int) :
    set_completed_at_when_done status v now ≠ none ↔ status = .done := by
  unfold set_completed_at_when_done
  by_cases h : status = TaskStatus.done
  · subst h
    cases v <;> simp
  · simp [h]

/-- Claim C8: for every successfully constructed Task, `completed_at` is
non-null exactly when the status is DONE — the `set_completed_at_when_done`
validator fills in the current time when status is DONE and `completed_at` is
null and clears `completed_at` whenever status is not DONE; consequently direct
construction with status ARCHIVED always fails with a
`StateValidationException` of code `ARCHIVED_WITHOUT_COMPLETION`, even when a
non-null `completed_at` is supplied (it is cleared before the consistency
check), while the consistency check itself accepts an archived state carrying
completion evidence — the state reached by flipping the status of an
already-DONE instance. -/
theorem C8_completed_at_iff_done (now oneYearAgo : Int) (id : Option Int)
    (title : String) (desc : Option String) (status : TaskStatus) (prio : Priority)
    (tags : List Tag) (due cAt compAt : Option Int)
    (h1 : 1 ≤ title.toList.length) (h2 : title.toList.length ≤ 200)
    (h3 : pystrip title ≠ "")
    (hdesc : ∀ s : String, desc = some s → s.toList.length ≤ 2000)
    (hdue : ∀ d : Int, due = some d → oneYearAgo ≤ d) :
    set_completed_at_when_done .done none now = some now ∧
    (status ≠ .done → set_completed_at_when_done status compAt now = none) ∧
    (∀ t : Task,
      Task.construct now oneYearAgo id title desc status prio tags due cAt compAt =
        .ok t → (t.completed_at ≠ none ↔ t.status = .done)) ∧
    Task.construct now oneYearAgo id title desc .archived prio tags due cAt compAt =
      .error { excClass := "StateValidationException", code := "ARCHIVED_WITHOUT_COMPLETION",
               currentStatus := "archived" } ∧
    (compAt ≠ none → validate_task_consistency .archived compAt = .ok ()) := by
  have ht : checkTitle title = .ok (pystrip title) := by
    unfold checkTitle
    rw [if_neg (by omega), if_neg (by omega), if_neg h3]
  have hd : checkDescription desc = .ok desc := by
    cases hcase : desc with
    | none => rfl
    | some s =>
      have := hdesc s hcase
      simp only [checkDescription]
      rw [if_neg (by omega)]
  have hdd : due_date_must_be_future due oneYearAgo = .ok due := by
    cases hcase : due with
    | none => rfl
    | some d =>
      have := hdue d hcase
      simp only [due_date_must_be_future]
      rw [if_neg (not_lt.mpr this)]
  refine ⟨rfl, ?_, ?_, ?_, ?_⟩
  · intro hne
    unfold set_completed_at_when_done
    rw [if_neg (by simp [hne]), if_pos hne]
  · intro t hok
    simp only [Task.construct, ht, hd, hdd] at hok
    cases hcon : validate_task_consistency status
        (set_completed_at_when_done status compAt now) with
    | error e =>
      rw [hcon] at hok
      cases hok
    | ok u =>
      rw [hcon] at hok
      cases hok
      simpa using set_completed_ne_none_iff status compAt now
  · have hcomp : set_completed_at_when_done .archived compAt now = none := by
      unfold set_completed_at_when_done
      rw [if_neg (by simp), if_pos (by simp)]
    simp only [Task.construct, ht, hd, hdd, hcomp]
    simp [validate_task_consistency, TaskStatus.value]
  · intro hne
    unfold validate_task_consistency
    rw [if_neg (by simp [hne])]

theorem C8_witness :
    Task.construct 100 0 none "Report" none .archived .high [] none none (some 50) =
      .error { excClass := "StateValidationException", code := "ARCHIVED_WITHOUT_COMPLETION",
               currentStatus := "archived" } ∧
    set_completed_at_when_done .done none 100 = some 100 ∧
    set_completed_at_when_done .todo (some 50) 100 = none ∧
    validate_task_consistency .archived (some 50) = .ok () := by
  have h := C8_completed_at_iff_done 100 0 none "Report" none .todo .high [] none none
    (some 50) (by decide) (by decide) (by decide)
    (by intro s hs; cases hs) (by intro d hd; cases hd)
  exact ⟨h.2.2.2.1, h.1, h.2.1 (by decide), h.2.2.2.2 (by decide)⟩

/-- Claim C10, counterexample: the claim as stated fails on the code in three
places.  The username "abc\n" is non-blank and contains a newline, which is
outside letters, digits and underscore, yet construction succeeds (Python `$`
also matches just before a trailing newline, and the validator then returns the
stripped value "abc").  The username "a-" is non-blank and contains a hyphen,
but fails the pydantic `min_length = 3` constraint, not `USERNAME_INVALID_FORMAT`.
And the User validator is not strictly stricter than the standalone
`validate_username_format`: "1ab" passes the User validator while the
standalone one rejects it for not starting with a letter. -/
theorem C10_username_counterexample :
    (pystrip "abc\n" ≠ "" ∧ '\n' ∈ "abc\n".toList ∧
      pyUserUsernameAllowed '\n' = false ∧
      usernameFieldValidate "abc\n" = .ok "abc") ∧
    usernameFieldValidate "a-" =
      .error { excClass := "ValidationError", code := "ANY_STR_MIN_LENGTH",
               fieldName := "username" } ∧
    (usernameFieldValidate "1ab" = .ok "1ab" ∧
      validate_username_format "1ab" =
        .error { excClass := "FieldValidationException", code := "USERNAME_INVALID_START",
                 fieldName := "username" }) := by
  decide

/-- Claim C10, amended: for every username of length 3 to 50 that is non-blank
and contains a character outside letters, digits and underscore, construction
fails with `USERNAME_INVALID_FORMAT` and the offending characters are
de-duplicated in `details.invalid_characters` — except when the pattern is
saved by the trailing-newline tolerance of `$` (all characters but one final
newline allowed), in which case construction succeeds with the stripped value,
as "abc\n" shows.  The User validator and the standalone
`validate_username_format` disagree in both directions: "alice-smith" is
rejected by the User validator (hyphen) but accepted by the standalone one,
while "1ab" is accepted by the User validator but rejected by the standalone
one, so neither is strictly stricter than the other. -/
theorem C10_username_validators_amended (v : String)
    (h1 : 3 ≤ v.toList.length) (h2 : v.toList.length ≤ 50) (h3 : pystrip v ≠ "")
    (h4 : ∃ c ∈ v.toList, pyUserUsernameAllowed c = false)
    (h5 : ¬ (v.toList.getLast? = some '\n' ∧
             v.toList.dropLast.all pyUserUsernameAllowed = true)) :
    (usernameFieldValidate v =
      .error { excClass := "FieldValidationException", code := "USERNAME_INVALID_FORMAT",
               fieldName := "username",
               invalidCharacters :=
                 (v.toList.filter (fun c => !pyUserUsernameAllowed c)).dedup } ∧
     ((v.toList.filter (fun c => !pyUserUsernameAllowed c)).dedup).Nodup ∧
     (∀ c : Char, c ∈ (v.toList.filter (fun c => !pyUserUsernameAllowed c)).dedup ↔
        c ∈ v.toList ∧ pyUserUsernameAllowed c = false)) ∧
    userValidateUsername "alice-smith" =
      .error { excClass := "FieldValidationException", code := "USERNAME_INVALID_FORMAT",
               fieldName := "username", invalidCharacters := ['-'] } ∧
    validate_username_format "alice-smith" = .ok "alice-smith" ∧
    usernameFieldValidate "1ab" = .ok "1ab" ∧
    validate_username_format "1ab" =
      .error { excClass := "FieldValidationException", code := "USERNAME_INVALID_START",
               fieldName := "username" } ∧
    userValidateUsername "abc\n" = .ok "abc" := by
  have hv : v ≠ "" := by
    intro h
    subst h
    exact absurd h1 (by decide)
  have hpat : userUsernamePatternMatch v = false := by
    obtain ⟨c, hc, hcf⟩ := h4
    simp only [userUsernamePatternMatch, Bool.or_eq_false_iff]
    constructor
    · have hall : v.toList.all pyUserUsernameAllowed = false := by
        rw [List.all_eq_false]
        exact ⟨c, hc, by simp [hcf]⟩
      simp [hall]
      intro hne
      exact ⟨c, hc, hcf⟩
    · cases hl : v.toList.getLast? with
      | none => rfl
      | some z =>
        by_cases hz : z = '\n'
        · subst hz
          have hall2 : v.toList.dropLast.all pyUserUsernameAllowed = false := by
            cases hall3 : v.toList.dropLast.all pyUserUsernameAllowed
            · rfl
            · exact absurd ⟨hl, hall3⟩ h5
          simp [hall2]
          intro hne
          obtain ⟨x, hx, hxf⟩ := List.all_eq_false.mp hall2
          exact ⟨x, hx, by simpa using hxf⟩
        · simp [hz]
  refine ⟨⟨?_, List.nodup_dedup _, ?_⟩, by decide, by decide, by decide, by decide,
          by decide⟩
  · unfold usernameFieldValidate userValidateUsername
    rw [if_neg (by omega), if_neg (by omega), if_neg (by simp [hv, h3])]
    simp [hpat]
  · intro c
    simp [List.mem_dedup, List.mem_filter]

theorem C10_witness :
    usernameFieldValidate "ab-cd" =
      .error { excClass := "FieldValidationException", code := "USERNAME_INVALID_FORMAT",
               fieldName := "username", invalidCharacters := ['-'] } ∧
    validate_username_format "alice-smith" = .ok "alice-smith" := by
  have h := C10_username_validators_amended "ab-cd" (by decide) (by decide) (by decide)
    ⟨'-', by decide, by decide⟩ (by decide)
  refine ⟨?_, h.2.2.1⟩
  have h2 := h.1.1
  rw [h2]
  decide

end TaskManager
